import Mathlib

/-!
Verification of the healthcare repository's auth/session core against its
specification.

Shallow embedding of:
- `src/utils/jwt.util.js` — token signing/verification, modelled symbolically:
  a signed token records its payload plus a distinct issuance nonce (standing
  for the `iat`-bearing JWT string); tokens signed with the wrong secret or
  malformed strings fail verification.
- `src/utils/password.util.js` — bcrypt is modelled by its defining property:
  `comparePassword plain hash` succeeds exactly when `hash` was produced by
  `hashPassword plain`.
- `src/models/user.model.js` — the User document.
- `src/services/auth.service.js` — createPatientAccount, authenticate,
  refreshAuth, revokeTokens. The provider-assignment and patient-profile
  writes touch collections outside the auth/audit scope of the spec and do
  not affect the User collection or the returned tokens; they are elided.
  The consent side effect (`Consent.recordRegistrationConsents`) is modelled.
- `src/models/consent.model.js` — grant / revoke / recordRegistrationConsents.
- `src/models/auditLog.model.js` — the static `log` method, with the
  persistence outcome made explicit so that the catch-and-swallow behaviour
  is visible.

A JS `throw err` with `err.status` is embedded as `Except.error`; since every
error in these services is thrown before any write of the relevant operation
persists, an `Except.error` result leaves the state unchanged by construction.
-/

/-- HTTP-status-carrying error, the embedding of the thrown `Error` objects
with their `.status` field. -/
structure Err where
  status : Nat
  message : String
deriving DecidableEq, Repr

/-- Payload of a refresh token: `{ sub, role }` as in `signRefreshToken`. -/
structure RefreshPayload where
  sub : Nat
  role : String
deriving DecidableEq, Repr

/-- A token string. A token signed by this service records its payload and a
distinct issuance nonce (the JWT `iat`/randomness that makes each issued
string distinct). `accessSigned` tokens use the access secret, so they fail
refresh verification; `malformed` stands for any string that verifies under
neither secret (bad signature, expired, garbage). -/
inductive Token
  | refreshSigned (payload : RefreshPayload) (nonce : Nat)
  | accessSigned (sub : Nat) (role : String) (email : String) (nonce : Nat)
  | malformed (raw : String)
deriving DecidableEq, Repr

/-- `jwt.util.verifyRefreshToken`: succeeds only on tokens signed with the
refresh secret, returning the decoded payload. -/
def verifyRefreshToken : Token → Except String RefreshPayload
  | .refreshSigned p _ => .ok p
  | _ => .error "invalid signature"

/-- The issuance nonce of a token. -/
def Token.nonce : Token → Nat
  | .refreshSigned _ n => n
  | .accessSigned _ _ _ n => n
  | .malformed _ => 0

/-- The embedded subject of an access token, if any. -/
def Token.accessSub : Token → Option Nat
  | .accessSigned s _ _ _ => some s
  | _ => none

/-- bcrypt hash, modelled by its defining property: the hash determines
exactly the plaintexts that compare successfully. -/
inductive PasswordHash
  | bcrypt (plain : String)
deriving DecidableEq, Repr

/-- `password.util.hashPassword`. -/
def hashPassword (plain : String) : PasswordHash :=
  .bcrypt plain

/-- `password.util.comparePassword`. -/
def comparePassword (plain : String) (hash : PasswordHash) : Bool :=
  match hash with
  | .bcrypt p => decide (plain = p)

/-- The embedding of JS `String.prototype.toLowerCase` (ASCII case folding),
written over the char list so that it evaluates in the kernel. -/
def lowercase (s : String) : String :=
  String.mk (s.data.map Char.toLower)

/-- A User document (`src/models/user.model.js`): email stored lowercase,
`refreshTokens` is the ordered list of currently live refresh tokens. -/
structure User where
  id : Nat
  email : String
  passwordHash : PasswordHash
  role : String
  refreshTokens : List Token
deriving DecidableEq, Repr

/-- A Consent document (`src/models/consent.model.js`). Timestamps are
abstract `Nat` instants. -/
structure ConsentRecord where
  user : Nat
  consentType : String
  version : String
  granted : Bool
  grantedAt : Option Nat
  revokedAt : Option Nat
  method : String
  ipAddress : Option String
  notes : Option String
deriving DecidableEq, Repr

/-- The persistent state the auth service reads and writes: the User
collection, the Consent collection, a supply of fresh document ids and a
supply of fresh token nonces. -/
structure AuthState where
  users : List User
  consents : List ConsentRecord
  nextId : Nat
  nextNonce : Nat
deriving Repr

/-- `User.findById` — first user with the given id. -/
def getUser (σ : AuthState) (userId : Nat) : Option User :=
  σ.users.find? (fun u => decide (u.id = userId))

/-- `User.findOne({ email })` — first user with the given (lowercased)
email. -/
def getUserByEmail (σ : AuthState) (email : String) : Option User :=
  σ.users.find? (fun u => decide (u.email = email))

/-- `user.save()` — write back the document with the matching id. -/
def saveUser (σ : AuthState) (updated : User) : List User :=
  σ.users.map (fun u => if u.id = updated.id then updated else u)

namespace Consent

/-- The match condition of the `updateMany`/`findOne` filters:
`{ user, consentType, granted: true, revokedAt: null }`. -/
def activeMatch (userId : Nat) (consentType : String) (c : ConsentRecord) : Bool :=
  decide (c.user = userId ∧ c.consentType = consentType ∧ c.granted = true ∧ c.revokedAt = none)

/-- The currently active consent records of a (user, type) pair. -/
def activeRecords (store : List ConsentRecord) (userId : Nat) (consentType : String) :
    List ConsentRecord :=
  store.filter (activeMatch userId consentType)

/-- `Consent.grant`: first stamps `revokedAt` on every currently active
record of this (user, type), then inserts the new active record. Returns the
updated store and the created record. -/
def grant (store : List ConsentRecord) (userId : Nat) (consentType version : String)
    (now : Nat) (method : String) (ip notes : Option String) :
    List ConsentRecord × ConsentRecord :=
  let revokedStore := store.map (fun c =>
    if activeMatch userId consentType c then { c with revokedAt := some now } else c)
  let newRec : ConsentRecord :=
    { user := userId, consentType := consentType, version := version,
      granted := true, grantedAt := some now, revokedAt := none,
      method := method, ipAddress := ip, notes := notes }
  (revokedStore ++ [newRec], newRec)

/-- `Consent.revoke`: stamps `revokedAt` and flips `granted` on all currently
active records of this (user, type). -/
def revoke (store : List ConsentRecord) (userId : Nat) (consentType : String)
    (now : Nat) : List ConsentRecord :=
  store.map (fun c =>
    if activeMatch userId consentType c then
      { c with revokedAt := some now, granted := false }
    else c)

/-- The four consents recorded at registration, with their versions. -/
def requiredConsents : List (String × String) :=
  [("terms_of_service", "1.0"), ("privacy_policy", "1.0"),
   ("data_processing", "1.0"), ("health_data_sharing", "1.0")]

/-- `Consent.recordRegistrationConsents`: grants each required consent in
order with method `registration`. -/
def recordRegistrationConsents (store : List ConsentRecord) (userId : Nat)
    (ip : Option String) (now : Nat) : List ConsentRecord :=
  requiredConsents.foldl
    (fun acc c => (grant acc userId c.1 c.2 now "registration" ip none).1) store

end Consent

/-- Registration payload (`POST /auth/register` body). A missing field is
`none`; the empty string is the falsy string, as in the JS truthiness checks
`!email` / `!password`. -/
structure RegisterPayload where
  email : String
  password : String
  name : Option String := none
  age : Option Nat := none
  consent : Option Bool := none
deriving Repr

/-- What the auth operations return on success (user summary plus the token
pair). -/
structure AuthResult where
  userId : Nat
  userEmail : String
  userRole : String
  accessToken : Token
  refreshToken : Token
deriving DecidableEq, Repr

namespace AuthService

/-- `authService.createPatientAccount(payload, ipAddress)`.
`now` is the abstract instant stamped on the recorded consents. The
provider-assignment and patient-profile writes touch collections outside this
scope and do not affect the User collection or the returned value; they are
elided here. The JS destructuring default `consent = true` becomes
`payload.consent.getD true`. -/
def createPatientAccount (σ : AuthState) (payload : RegisterPayload)
    (ipAddress : Option String) (now : Nat) :
    Except Err (AuthResult × AuthState) :=
  let consent := payload.consent.getD true
  if payload.email = "" ∨ payload.password = "" then
    .error ⟨400, "Email and password required"⟩
  else if consent = false then
    .error ⟨400, "You must accept the terms and privacy policy to register"⟩
  else
    match getUserByEmail σ (lowercase payload.email) with
    | some _ => .error ⟨409, "Email already registered"⟩
    | none =>
      let passwordHash := hashPassword payload.password
      let newUser : User :=
        { id := σ.nextId, email := lowercase payload.email,
          passwordHash := passwordHash, role := "patient", refreshTokens := [] }
      let consents := Consent.recordRegistrationConsents σ.consents newUser.id ipAddress now
      let accessToken := Token.accessSigned newUser.id newUser.role newUser.email σ.nextNonce
      let refreshToken := Token.refreshSigned ⟨newUser.id, newUser.role⟩ (σ.nextNonce + 1)
      let savedUser := { newUser with refreshTokens := newUser.refreshTokens ++ [refreshToken] }
      .ok ({ userId := newUser.id, userEmail := newUser.email, userRole := newUser.role,
             accessToken := accessToken, refreshToken := refreshToken },
           { users := σ.users ++ [savedUser], consents := consents,
             nextId := σ.nextId + 1, nextNonce := σ.nextNonce + 2 })

/-- `authService.authenticate(email, password)`. -/
def authenticate (σ : AuthState) (email password : String) :
    Except Err (AuthResult × AuthState) :=
  if email = "" ∨ password = "" then
    .error ⟨400, "Email and password required"⟩
  else
    match getUserByEmail σ (lowercase email) with
    | none => .error ⟨401, "Invalid credentials"⟩
    | some user =>
      if comparePassword password user.passwordHash = false then
        .error ⟨401, "Invalid credentials"⟩
      else
        let accessToken := Token.accessSigned user.id user.role user.email σ.nextNonce
        let refreshToken := Token.refreshSigned ⟨user.id, user.role⟩ (σ.nextNonce + 1)
        let updated := { user with refreshTokens := user.refreshTokens ++ [refreshToken] }
        .ok ({ userId := user.id, userEmail := user.email, userRole := user.role,
               accessToken := accessToken, refreshToken := refreshToken },
             { σ with users := saveUser σ updated, nextNonce := σ.nextNonce + 2 })

/-- `authService.refreshAuth(oldRefreshToken)`: verify, decode, look the user
up, require the token to still be live, then rotate (remove old, append
new). A missing token is `none`. -/
def refreshAuth (σ : AuthState) (oldRefreshToken : Option Token) :
    Except Err (AuthResult × AuthState) :=
  match oldRefreshToken with
  | none => .error ⟨400, "Refresh token required"⟩
  | some tok =>
    match verifyRefreshToken tok with
    | .error _ => .error ⟨401, "Invalid refresh token"⟩
    | .ok decoded =>
      match getUser σ decoded.sub with
      | none => .error ⟨401, "User not found for refresh token"⟩
      | some user =>
        if tok ∈ user.refreshTokens then
          let newAccessToken := Token.accessSigned user.id user.role user.email σ.nextNonce
          let newRefreshToken := Token.refreshSigned ⟨user.id, user.role⟩ (σ.nextNonce + 1)
          let updated := { user with refreshTokens :=
            (user.refreshTokens.filter (fun t => decide (t ≠ tok))) ++ [newRefreshToken] }
          .ok ({ userId := user.id, userEmail := user.email, userRole := user.role,
                 accessToken := newAccessToken, refreshToken := newRefreshToken },
               { σ with users := saveUser σ updated, nextNonce := σ.nextNonce + 2 })
        else
          .error ⟨401, "Refresh token not recognized"⟩

/-- `authService.revokeTokens(userId, refreshToken?)`: with a token, remove
only that token; with none, clear the whole set. Returns `true` as the JS
does. -/
def revokeTokens (σ : AuthState) (userId : Nat) (refreshToken : Option Token) :
    Except Err (Bool × AuthState) :=
  match getUser σ userId with
  | none => .error ⟨404, "User not found"⟩
  | some user =>
    let updated :=
      match refreshToken with
      | some tok => { user with refreshTokens :=
          user.refreshTokens.filter (fun t => decide (t ≠ tok)) }
      | none => { user with refreshTokens := [] }
    .ok (true, { σ with users := saveUser σ updated })

end AuthService

/-- Input to `AuditLog.log` (`data` in the source); optional fields default
inside `log` exactly as the `||`-defaults do. -/
structure AuditInput where
  userId : Option Nat := none
  userEmail : Option String := none
  userRole : Option String := none
  action : String
  resourceType : Option String := none
  resourceId : Option Nat := none
  method : Option String := none
  endpoint : Option String := none
  ipAddress : Option String := none
  userAgent : Option String := none
  details : Option String := none
  success : Option Bool := none
  errorMessage : Option String := none
deriving Repr

/-- A persisted AuditLog document. -/
structure AuditEntry where
  userId : Option Nat
  userEmail : Option String
  userRole : Option String
  action : String
  resourceType : Option String
  resourceId : Option Nat
  method : Option String
  endpoint : Option String
  ipAddress : Option String
  userAgent : Option String
  details : Option String
  success : Bool
  errorMessage : Option String
  timestamp : Nat
deriving DecidableEq, Repr

/-- Outcome of the underlying `this.create` persistence call, made explicit
so the catch behaviour of `log` is expressible. -/
inductive DbOutcome
  | ok
  | failure (msg : String)
deriving DecidableEq, Repr

/-- The document `AuditLog.log` builds from its input: each optional field
defaulted to null, `success` defaulted to true, timestamp stamped. -/
def buildAuditEntry (data : AuditInput) (now : Nat) : AuditEntry :=
  { userId := data.userId, userEmail := data.userEmail, userRole := data.userRole,
    action := data.action, resourceType := data.resourceType,
    resourceId := data.resourceId, method := data.method,
    endpoint := data.endpoint, ipAddress := data.ipAddress,
    userAgent := data.userAgent, details := data.details,
    success := data.success.getD true, errorMessage := data.errorMessage,
    timestamp := now }

/-- `this.create(...)` inside `AuditLog.log`: persists the entry, or raises
when the store fails. -/
def auditDbCreate (entry : AuditEntry) (db : DbOutcome) : Except String AuditEntry :=
  match db with
  | .ok => .ok entry
  | .failure msg => .error msg

/-- What a call to `AuditLog.log` leaves behind: the persisted entry when the
write succeeded, and the locally logged `console.error` line when it did
not. -/
structure AuditLogOutcome where
  saved : Option AuditEntry
  consoleError : Option String
deriving DecidableEq, Repr

namespace AuditLog

/-- `AuditLog.log(data)`: try to persist; on failure, log locally and return
normally — the error is never re-raised (the `catch` block has no `throw`).
The `Except String` on the result is the channel a raised error would use;
`log` never uses it. -/
def log (data : AuditInput) (now : Nat) (db : DbOutcome) :
    Except String AuditLogOutcome :=
  match auditDbCreate (buildAuditEntry data now) db with
  | .ok entry => .ok { saved := some entry, consoleError := none }
  | .error msg => .ok { saved := none, consoleError := some ("Failed to write audit log: " ++ msg) }

end AuditLog

/-! ### Helper lemmas about `find?`, `filter` and `map` -/

/-- `find?` commutes with a map that preserves the predicate. -/
theorem find?_map_of_pred_pres {α : Type} (p : α → Bool) (f : α → α) (l : List α)
    (hf : ∀ u, p (f u) = p u) :
    (l.map f).find? p = (l.find? p).map f := by
  induction l with
  | nil => rfl
  | cons a l ih =>
    by_cases ha : p a
    · simp [List.find?_cons, hf, ha]
    · simp [List.find?_cons, hf, ha, ih]

/-- Writing back a user document with `saveUser` makes a lookup by the same
id return the written document. -/
theorem find?_saveUser (σ : AuthState) (user updated : User) (userId : Nat)
    (hidu : updated.id = user.id)
    (hu : σ.users.find? (fun u => decide (u.id = userId)) = some user) :
    (saveUser σ updated).find? (fun u => decide (u.id = userId)) = some updated := by
  rw [saveUser, find?_map_of_pred_pres]
  · rw [hu]
    simp [hidu]
  · intro u
    by_cases h : u.id = updated.id
    · rw [if_pos h, h]
    · simp [h]

/-- All stored refresh tokens carry a nonce strictly below the next nonce to
be issued: every token was issued from an earlier value of the monotone
supply. -/
def TokensFresh (σ : AuthState) : Prop :=
  ∀ u ∈ σ.users, ∀ tk ∈ u.refreshTokens, tk.nonce < σ.nextNonce

/-- Claim C1: refresh-token rotation is single-use. If `refreshAuth` succeeds
on a token `t` (in a state whose stored tokens are fresh), then a second
`refreshAuth` with the same `t` on the resulting state fails with status 401
(the token is no longer in the live set). -/
theorem refresh_rotation_single_use (σ σ' : AuthState) (t : Token) (r : AuthResult)
    (hfresh : TokensFresh σ)
    (hrot : AuthService.refreshAuth σ (some t) = Except.ok (r, σ')) :
    AuthService.refreshAuth σ' (some t) =
      Except.error ⟨401, "Refresh token not recognized"⟩ := by
  match t with
  | .accessSigned s ro e nn =>
    simp [AuthService.refreshAuth, verifyRefreshToken] at hrot
  | .malformed s =>
    simp [AuthService.refreshAuth, verifyRefreshToken] at hrot
  | .refreshSigned pl n =>
    simp only [AuthService.refreshAuth, verifyRefreshToken] at hrot
    cases hgu : getUser σ pl.sub with
    | none => rw [hgu] at hrot; simp at hrot
    | some user =>
      rw [hgu] at hrot
      dsimp only at hrot
      by_cases hmem : (Token.refreshSigned pl n) ∈ user.refreshTokens
      · rw [if_pos hmem] at hrot
        rw [Except.ok.injEq, Prod.mk.injEq] at hrot
        obtain ⟨hr, hσ⟩ := hrot
        have hid : user.id = pl.sub := by
          have := List.find?_some hgu
          simpa using this
        have huser : user ∈ σ.users := List.mem_of_find?_eq_some hgu
        have hn : n < σ.nextNonce := by
          have := hfresh user huser _ hmem
          simpa [Token.nonce] using this
        set updated : User :=
          { user with refreshTokens :=
              (user.refreshTokens.filter (fun x => decide (x ≠ Token.refreshSigned pl n)))
                ++ [Token.refreshSigned ⟨user.id, user.role⟩ (σ.nextNonce + 1)] }
          with hupd
        have hgu' : getUser σ' pl.sub = some updated := by
          rw [← hσ]
          exact find?_saveUser σ user updated pl.sub rfl hgu
        simp only [AuthService.refreshAuth, verifyRefreshToken]
        rw [hgu']
        dsimp only
        have hnot : (Token.refreshSigned pl n) ∉ updated.refreshTokens := by
          intro hmem'
          rw [hupd] at hmem'
          rcases List.mem_append.mp hmem' with hin | hin
          · have := (List.mem_filter.mp hin).2
            simp at this
          · have := List.mem_singleton.mp hin
            have hne : n = σ.nextNonce + 1 := by
              injection this with h1 h2
            omega
        rw [if_neg hnot]
      · rw [if_neg hmem] at hrot
        simp at hrot

/-- Claim C2: logging out with no token is logout-everywhere. After
`revokeTokens userId none` succeeds, the user's refresh-token set is empty,
and rotating any refresh token decoded to that user fails with status 401. -/
theorem revoke_all_clears_sessions (σ σ' : AuthState) (userId : Nat) (user : User)
    (pl : RefreshPayload) (n : Nat)
    (hsub : pl.sub = userId)
    (hu : getUser σ userId = some user)
    (_htmem : Token.refreshSigned pl n ∈ user.refreshTokens)
    (hrev : AuthService.revokeTokens σ userId none = Except.ok (true, σ')) :
    (∃ u', getUser σ' userId = some u' ∧ u'.refreshTokens = []) ∧
    AuthService.refreshAuth σ' (some (Token.refreshSigned pl n)) =
      Except.error ⟨401, "Refresh token not recognized"⟩ := by
  simp only [AuthService.revokeTokens] at hrev
  rw [hu] at hrev
  dsimp only at hrev
  rw [Except.ok.injEq, Prod.mk.injEq] at hrev
  obtain ⟨-, hσ⟩ := hrev
  set updated : User := { user with refreshTokens := [] } with hupd
  have hu' : σ.users.find? (fun u => decide (u.id = userId)) = some user := hu
  have hgu' : getUser σ' userId = some updated := by
    rw [← hσ]
    exact find?_saveUser σ user updated userId rfl hu'
  refine ⟨⟨updated, hgu', rfl⟩, ?_⟩
  simp only [AuthService.refreshAuth, verifyRefreshToken]
  rw [hsub, hgu']
  dsimp only
  rw [if_neg (by simp [hupd])]

/-- Claim C3: revoking one specific token is frame-preserving and idempotent.
After `revokeTokens userId (some t)` succeeds, the user's new live set holds
exactly the old tokens other than `t`; any other refresh token of that user
still rotates successfully; and when `t` was already absent the call is still
a success that leaves the set unchanged. -/
theorem revoke_single_token_frame (σ σ' : AuthState) (userId : Nat) (user : User)
    (t : Token)
    (hu : getUser σ userId = some user)
    (hrev : AuthService.revokeTokens σ userId (some t) = Except.ok (true, σ')) :
    (∃ u', getUser σ' userId = some u' ∧
       (∀ x, x ∈ u'.refreshTokens ↔ (x ∈ user.refreshTokens ∧ x ≠ t)) ∧
       (t ∉ user.refreshTokens → u'.refreshTokens = user.refreshTokens)) ∧
    (∀ pl n, Token.refreshSigned pl n ∈ user.refreshTokens →
       Token.refreshSigned pl n ≠ t → pl.sub = userId →
       ∃ r σ'', AuthService.refreshAuth σ' (some (Token.refreshSigned pl n)) =
         Except.ok (r, σ'')) := by
  simp only [AuthService.revokeTokens] at hrev
  rw [hu] at hrev
  dsimp only at hrev
  rw [Except.ok.injEq, Prod.mk.injEq] at hrev
  obtain ⟨-, hσ⟩ := hrev
  set updated : User :=
    { user with refreshTokens := user.refreshTokens.filter (fun x => decide (x ≠ t)) }
    with hupd
  have hu' : σ.users.find? (fun u => decide (u.id = userId)) = some user := hu
  have hgu' : getUser σ' userId = some updated := by
    rw [← hσ]
    exact find?_saveUser σ user updated userId rfl hu'
  constructor
  · refine ⟨updated, hgu', ?_, ?_⟩
    · intro x
      rw [hupd]
      simp [List.mem_filter]
    · intro hnot
      rw [hupd]
      show user.refreshTokens.filter (fun x => decide (x ≠ t)) = user.refreshTokens
      apply List.filter_eq_self.mpr
      intro x hx
      simp only [decide_eq_true_eq]
      intro hxt
      exact hnot (hxt ▸ hx)
  · intro pl n hmem hne hplsub
    have hmem' : Token.refreshSigned pl n ∈ updated.refreshTokens := by
      rw [hupd]
      simp only [List.mem_filter, decide_eq_true_eq]
      exact ⟨hmem, hne⟩
    have heq : AuthService.refreshAuth σ' (some (Token.refreshSigned pl n)) =
        Except.ok
          ({ userId := updated.id, userEmail := updated.email, userRole := updated.role,
             accessToken := Token.accessSigned updated.id updated.role updated.email σ'.nextNonce,
             refreshToken := Token.refreshSigned ⟨updated.id, updated.role⟩ (σ'.nextNonce + 1) },
           { σ' with
             users := saveUser σ' { updated with refreshTokens :=
               (updated.refreshTokens.filter
                 (fun x => decide (x ≠ Token.refreshSigned pl n)))
                 ++ [Token.refreshSigned ⟨updated.id, updated.role⟩ (σ'.nextNonce + 1)] },
             nextNonce := σ'.nextNonce + 2 }) := by
      simp only [AuthService.refreshAuth, verifyRefreshToken]
      rw [hplsub, hgu']
      dsimp only
      rw [if_pos hmem']
    exact ⟨_, _, heq⟩

/-- Claim C10: `revokeTokens` is not total over user ids. For a userId
matching no user, both the single-token form and the revoke-all form fail
with status 404 rather than succeeding as a no-op. -/
theorem revoke_unknown_user_404 (σ : AuthState) (userId : Nat) (tok : Option Token)
    (hnone : getUser σ userId = none) :
    AuthService.revokeTokens σ userId tok = Except.error ⟨404, "User not found"⟩ := by
  simp only [AuthService.revokeTokens, hnone]

/-! ### Concrete scenario used by the witnesses -/

/-- A live refresh token of the demo user. -/
def demoTok : Token := Token.refreshSigned (RefreshPayload.mk 1 "patient") 0

/-- A second live refresh token of the demo user (another device). -/
def demoTok2 : Token := Token.refreshSigned (RefreshPayload.mk 1 "patient") 1

/-- A registered patient with two live sessions. -/
def demoUser : User :=
  { id := 1, email := "alice@example.com", passwordHash := hashPassword "Passw0rd1",
    role := "patient", refreshTokens := [demoTok, demoTok2] }

/-- The demo store: one user, two live refresh tokens, nonces 0 and 1 already
issued. -/
def demoState : AuthState :=
  { users := [demoUser], consents := [], nextId := 2, nextNonce := 2 }

/-- `demoState` after a successful rotation of `demoTok`. -/
def demoRotState : AuthState :=
  { users := [{ demoUser with refreshTokens :=
      [demoTok2, Token.refreshSigned (RefreshPayload.mk 1 "patient") 3] }],
    consents := [], nextId := 2, nextNonce := 4 }

/-- The pair returned by that rotation. -/
def demoRotResult : AuthResult :=
  { userId := 1, userEmail := "alice@example.com", userRole := "patient",
    accessToken := Token.accessSigned 1 "patient" "alice@example.com" 2,
    refreshToken := Token.refreshSigned (RefreshPayload.mk 1 "patient") 3 }

/-- `demoState` after revoking all of user 1's tokens. -/
def demoRevAllState : AuthState :=
  { users := [{ demoUser with refreshTokens := [] }],
    consents := [], nextId := 2, nextNonce := 2 }

/-- `demoState` after revoking only `demoTok`. -/
def demoRevOneState : AuthState :=
  { users := [{ demoUser with refreshTokens := [demoTok2] }],
    consents := [], nextId := 2, nextNonce := 2 }

/-- Witness for C1 at the demo scenario. -/
theorem refresh_rotation_single_use_witness :
    AuthService.refreshAuth demoRotState (some demoTok) =
      Except.error ⟨401, "Refresh token not recognized"⟩ :=
  refresh_rotation_single_use demoState demoRotState demoTok demoRotResult
    (by unfold TokensFresh; decide) (by rfl)

/-- Witness for C2 at the demo scenario: after logout-everywhere, the first
previously live token no longer rotates. -/
theorem revoke_all_clears_sessions_witness :
    AuthService.refreshAuth demoRevAllState
        (some (Token.refreshSigned (RefreshPayload.mk 1 "patient") 0)) =
      Except.error ⟨401, "Refresh token not recognized"⟩ :=
  (revoke_all_clears_sessions demoState demoRevAllState 1 demoUser
    (RefreshPayload.mk 1 "patient") 0 rfl rfl (by decide) rfl).2

/-- Witness for C3 at the demo scenario: after revoking only `demoTok`, the
other live token `demoTok2` still rotates successfully. -/
theorem revoke_single_token_frame_witness :
    ∃ r σ'', AuthService.refreshAuth demoRevOneState (some demoTok2) =
      Except.ok (r, σ'') :=
  (revoke_single_token_frame demoState demoRevOneState 1 demoUser demoTok rfl rfl).2
    (RefreshPayload.mk 1 "patient") 1 (by decide) (by decide) rfl

/-- Witness for C10 at the demo scenario. -/
theorem revoke_unknown_user_404_witness :
    AuthService.revokeTokens demoState 99 none = Except.error ⟨404, "User not found"⟩ :=
  revoke_unknown_user_404 demoState 99 none rfl

/-- Claim C4: login failures are indistinguishable. With email and password
supplied, an unknown email and a wrong password both produce the very same
error: status 401, message "Invalid credentials". -/
theorem login_failures_indistinguishable (σ : AuthState) (email password : String)
    (hemail : email ≠ "") (hpw : password ≠ "") :
    (getUserByEmail σ (lowercase email) = none →
       AuthService.authenticate σ email password =
         Except.error ⟨401, "Invalid credentials"⟩) ∧
    (∀ user, getUserByEmail σ (lowercase email) = some user →
       comparePassword password user.passwordHash = false →
       AuthService.authenticate σ email password =
         Except.error ⟨401, "Invalid credentials"⟩) := by
  have hcond : ¬(email = "" ∨ password = "") := by simp [hemail, hpw]
  constructor
  · intro hnone
    simp only [AuthService.authenticate]
    rw [if_neg hcond, hnone]
  · intro user hsome hcomp
    simp only [AuthService.authenticate]
    rw [if_neg hcond, hsome]
    dsimp only
    rw [if_pos hcomp]

/-- Witness for C4: unknown email and wrong password on the demo store yield
the same generic 401. -/
theorem login_failures_indistinguishable_witness :
    AuthService.authenticate demoState "bob@example.com" "whatever" =
      Except.error ⟨401, "Invalid credentials"⟩ ∧
    AuthService.authenticate demoState "alice@example.com" "WrongPass" =
      Except.error ⟨401, "Invalid credentials"⟩ :=
  ⟨(login_failures_indistinguishable demoState "bob@example.com" "whatever"
      (by decide) (by decide)).1 (by decide),
   (login_failures_indistinguishable demoState "alice@example.com" "WrongPass"
      (by decide) (by decide)).2 demoUser (by decide) (by decide)⟩

/-- Claim C8: audit writes never fail the caller. Whatever the persistence
outcome, `AuditLog.log` returns normally; when the underlying create fails,
it returns normally with the failure logged locally instead of re-raised. -/
theorem audit_log_never_fails (data : AuditInput) (now : Nat) (db : DbOutcome) :
    (∃ out, AuditLog.log data now db = Except.ok out) ∧
    (∀ msg, db = DbOutcome.failure msg →
       AuditLog.log data now db =
         Except.ok { saved := none,
                     consoleError := some ("Failed to write audit log: " ++ msg) }) := by
  constructor
  · cases db <;> exact ⟨_, rfl⟩
  · intro msg h
    subst h
    rfl

/-- A minimal audit input (a login event). -/
def demoAudit : AuditInput := { action := "LOGIN" }

/-- Witness for C8: a failing persistence call still returns normally, with
the failure logged locally. -/
theorem audit_log_never_fails_witness :
    AuditLog.log demoAudit 0 (DbOutcome.failure "disk full") =
      Except.ok { saved := none,
                  consoleError := some "Failed to write audit log: disk full" } :=
  (audit_log_never_fails demoAudit 0 (DbOutcome.failure "disk full")).2 "disk full" rfl

/-- Claim C9: the registration consent flag defaults to granted when omitted.
With valid email and password, a free email slot, and no consent field at
all, registration succeeds; only an explicit consent=false is rejected, with
the 400 validation error. -/
theorem register_consent_defaults_to_granted (σ : AuthState) (p : RegisterPayload)
    (ip : Option String) (now : Nat)
    (hc : p.consent = none) (he : p.email ≠ "") (hp : p.password ≠ "")
    (hfree : getUserByEmail σ (lowercase p.email) = none) :
    (∃ r σ', AuthService.createPatientAccount σ p ip now = Except.ok (r, σ')) ∧
    AuthService.createPatientAccount σ { p with consent := some false } ip now =
      Except.error ⟨400, "You must accept the terms and privacy policy to register"⟩ := by
  have hcond : ¬(p.email = "" ∨ p.password = "") := by simp [he, hp]
  constructor
  · have hgetd : p.consent.getD true = true := by rw [hc]; rfl
    have heq : AuthService.createPatientAccount σ p ip now =
        Except.ok
          ({ userId := σ.nextId, userEmail := lowercase p.email, userRole := "patient",
             accessToken := Token.accessSigned σ.nextId "patient" (lowercase p.email) σ.nextNonce,
             refreshToken := Token.refreshSigned ⟨σ.nextId, "patient"⟩ (σ.nextNonce + 1) },
           { users := σ.users ++
               [{ id := σ.nextId, email := lowercase p.email,
                  passwordHash := hashPassword p.password, role := "patient",
                  refreshTokens :=
                    [Token.refreshSigned ⟨σ.nextId, "patient"⟩ (σ.nextNonce + 1)] }],
             consents := Consent.recordRegistrationConsents σ.consents σ.nextId ip now,
             nextId := σ.nextId + 1, nextNonce := σ.nextNonce + 2 }) := by
      simp only [AuthService.createPatientAccount, hgetd]
      rw [if_neg hcond, if_neg (by simp), hfree]
      rfl
    exact ⟨_, _, heq⟩
  · simp only [AuthService.createPatientAccount]
    rw [if_neg hcond]
    rfl

/-- Appending one matching element to a list in which `find?` fails makes
`find?` return exactly that element. -/
theorem find?_append_singleton {α : Type} (p : α → Bool) (l : List α) (x : α)
    (hl : l.find? p = none) (hx : p x = true) :
    (l ++ [x]).find? p = some x := by
  induction l with
  | nil => simp [List.find?_cons, hx]
  | cons a t ih =>
    have hpa : ¬ p a = true := by
      cases hpa : p a
      · simp
      · rw [List.find?_cons_of_pos _ hpa] at hl
        exact absurd hl (by simp)
    rw [List.find?_cons_of_neg _ hpa] at hl
    rw [List.cons_append, List.find?_cons_of_neg _ hpa]
    exact ih hl

/-- The User document that a successful `createPatientAccount` on state `σ`
with payload `p` persists (after the refresh token is pushed and saved). -/
def registeredUser (σ : AuthState) (p : RegisterPayload) : User :=
  { id := σ.nextId, email := lowercase p.email,
    passwordHash := hashPassword p.password, role := "patient",
    refreshTokens := [Token.refreshSigned ⟨σ.nextId, "patient"⟩ (σ.nextNonce + 1)] }

/-- Claim C5: email uniqueness is case-insensitive. After a successful
registration, a second registration whose email lowercases to the same
string fails with status 409 (and, the error being thrown before any write,
creates no user). -/
theorem register_duplicate_email_conflict (σ σ' : AuthState) (p p2 : RegisterPayload)
    (ip ip2 : Option String) (now now2 : Nat) (r : AuthResult)
    (hreg : AuthService.createPatientAccount σ p ip now = Except.ok (r, σ'))
    (hcase : lowercase p2.email = lowercase p.email)
    (he2 : p2.email ≠ "") (hp2 : p2.password ≠ "") (hc2 : p2.consent ≠ some false) :
    AuthService.createPatientAccount σ' p2 ip2 now2 =
      Except.error ⟨409, "Email already registered"⟩ := by
  simp only [AuthService.createPatientAccount] at hreg
  split at hreg
  · simp at hreg
  · split at hreg
    · simp at hreg
    · split at hreg
      · simp at hreg
      · rename_i hfree
        rw [Except.ok.injEq, Prod.mk.injEq] at hreg
        obtain ⟨hr, hσ⟩ := hreg
        have husers : σ'.users = σ.users ++ [registeredUser σ p] := by
          rw [← hσ]
          rfl
        have hfind : getUserByEmail σ' (lowercase p2.email) =
            some (registeredUser σ p) := by
          show σ'.users.find? (fun u => decide (u.email = lowercase p2.email)) =
            some (registeredUser σ p)
          rw [husers, hcase]
          exact find?_append_singleton _ _ _ hfree (by simp [registeredUser])
        have hcond2 : ¬(p2.email = "" ∨ p2.password = "") := by simp [he2, hp2]
        have hgetd2 : p2.consent.getD true = true := by
          cases hcp : p2.consent with
          | none => rfl
          | some b =>
            cases b with
            | false => exact absurd hcp hc2
            | true => rfl
        simp only [AuthService.createPatientAccount, hgetd2]
        rw [if_neg hcond2, if_neg (by simp), hfind]

/-- Claim C6: register/login round trip. After a successful registration, a
login with the very same email and password succeeds, and the returned
access token embeds the registered user's id as its subject. -/
theorem register_then_login (σ σ' : AuthState) (p : RegisterPayload)
    (ip : Option String) (now : Nat) (r : AuthResult)
    (hreg : AuthService.createPatientAccount σ p ip now = Except.ok (r, σ')) :
    ∃ r2 σ'', AuthService.authenticate σ' p.email p.password = Except.ok (r2, σ'') ∧
      r2.accessToken.accessSub = some r.userId := by
  simp only [AuthService.createPatientAccount] at hreg
  split at hreg
  · simp at hreg
  · split at hreg
    · simp at hreg
    · split at hreg
      · simp at hreg
      · rename_i hvalid hcons hx hfree
        rw [Except.ok.injEq, Prod.mk.injEq] at hreg
        obtain ⟨hr, hσ⟩ := hreg
        have husers : σ'.users = σ.users ++ [registeredUser σ p] := by
          rw [← hσ]
          rfl
        have hfind : getUserByEmail σ' (lowercase p.email) =
            some (registeredUser σ p) := by
          show σ'.users.find? (fun u => decide (u.email = lowercase p.email)) =
            some (registeredUser σ p)
          rw [husers]
          exact find?_append_singleton _ _ _ hfree (by simp [registeredUser])
        have hcomp : comparePassword p.password (registeredUser σ p).passwordHash = true := by
          simp [registeredUser, comparePassword, hashPassword]
        have heq : AuthService.authenticate σ' p.email p.password =
            Except.ok
              ({ userId := (registeredUser σ p).id,
                 userEmail := (registeredUser σ p).email,
                 userRole := (registeredUser σ p).role,
                 accessToken := Token.accessSigned (registeredUser σ p).id
                   (registeredUser σ p).role (registeredUser σ p).email σ'.nextNonce,
                 refreshToken := Token.refreshSigned
                   ⟨(registeredUser σ p).id, (registeredUser σ p).role⟩
                   (σ'.nextNonce + 1) },
               { σ' with
                 users := saveUser σ' { registeredUser σ p with refreshTokens :=
                   (registeredUser σ p).refreshTokens ++
                     [Token.refreshSigned
                       ⟨(registeredUser σ p).id, (registeredUser σ p).role⟩
                       (σ'.nextNonce + 1)] },
                 nextNonce := σ'.nextNonce + 2 }) := by
          simp only [AuthService.authenticate]
          rw [if_neg hvalid, hfind]
          dsimp only
          rw [if_neg (by simp [hcomp])]
        refine ⟨_, _, heq, ?_⟩
        rw [← hr]
        rfl

/-- A registration payload with no consent field at all. -/
def demoRegPayload : RegisterPayload :=
  { email := "Carol@Example.com", password := "S3cret" }

/-- The state produced by registering `demoRegPayload` on `demoState`. -/
def demoRegState : AuthState :=
  { users := demoState.users ++ [registeredUser demoState demoRegPayload],
    consents := Consent.recordRegistrationConsents demoState.consents 2 none 0,
    nextId := 3, nextNonce := 4 }

/-- The result returned by that registration. -/
def demoRegResult : AuthResult :=
  { userId := 2, userEmail := "carol@example.com", userRole := "patient",
    accessToken := Token.accessSigned 2 "patient" "carol@example.com" 2,
    refreshToken := Token.refreshSigned ⟨2, "patient"⟩ 3 }

/-- A second registration payload, same email up to letter case. -/
def demoRegPayload2 : RegisterPayload :=
  { email := "carol@EXAMPLE.com", password := "Other1", consent := some true }

/-- Witness for C5: re-registering the same email in different case on the
post-registration state yields the 409 conflict. -/
theorem register_duplicate_email_conflict_witness :
    AuthService.createPatientAccount demoRegState demoRegPayload2 none 1 =
      Except.error ⟨409, "Email already registered"⟩ :=
  register_duplicate_email_conflict demoState demoRegState demoRegPayload demoRegPayload2
    none none 0 1 demoRegResult (by rfl) (by decide) (by decide) (by decide) (by decide)

/-- Witness for C6: logging in with the registered credentials on the
post-registration state succeeds with the registered subject. -/
theorem register_then_login_witness :
    ∃ r2 σ'', AuthService.authenticate demoRegState "Carol@Example.com" "S3cret" =
      Except.ok (r2, σ'') ∧ r2.accessToken.accessSub = some demoRegResult.userId :=
  register_then_login demoState demoRegState demoRegPayload none 0 demoRegResult (by rfl)

/-- Witness for C9: registering with no consent field succeeds on the demo
store; flipping it to an explicit false is rejected with the 400 error. -/
theorem register_consent_defaults_to_granted_witness :
    (∃ r σ', AuthService.createPatientAccount demoState demoRegPayload none 0 =
       Except.ok (r, σ')) ∧
    AuthService.createPatientAccount demoState { demoRegPayload with consent := some false }
        none 0 =
      Except.error ⟨400, "You must accept the terms and privacy policy to register"⟩ :=
  register_consent_defaults_to_granted demoState demoRegPayload none 0
    rfl (by decide) (by decide) (by decide)

/-- A map that falsifies the predicate on every element yields an empty
filter. -/
theorem filter_map_eq_nil {α : Type} (p : α → Bool) (f : α → α) (l : List α)
    (h : ∀ c ∈ l, p (f c) = false) :
    (l.map f).filter p = [] := by
  rw [List.filter_eq_nil_iff]
  intro a ha
  obtain ⟨c, hc, rfl⟩ := List.mem_map.mp ha
  simp [h c hc]

/-- A map that fixes the elements satisfying the predicate and keeps the
rest unsatisfying leaves the filter unchanged. -/
theorem filter_map_congr_eq {α : Type} (p : α → Bool) (f : α → α) (l : List α)
    (h : ∀ c ∈ l, (p c = true → f c = c) ∧ (p c = false → p (f c) = false)) :
    (l.map f).filter p = l.filter p := by
  induction l with
  | nil => rfl
  | cons a t ih =>
    have ha := h a (List.mem_cons_self a t)
    have ht : ∀ c ∈ t, (p c = true → f c = c) ∧ (p c = false → p (f c) = false) :=
      fun c hc => h c (List.mem_cons_of_mem a hc)
    cases hpa : p a with
    | true =>
      have hfa : f a = a := ha.1 hpa
      rw [List.map_cons, hfa, List.filter_cons_of_pos hpa,
        List.filter_cons_of_pos hpa, ih ht]
    | false =>
      have hfa : p (f a) = false := ha.2 hpa
      rw [List.map_cons, List.filter_cons_of_neg (by simp [hfa]),
        List.filter_cons_of_neg (by simp [hpa]), ih ht]

/-- Claim C7: consent ledger invariant. `Consent.grant` stamps every
previously active record of the (user, type) pair and only then inserts the
new one, so afterwards the pair's active records are exactly the new record;
every other (user, type) pair is untouched; and the at-most-one-active
invariant is preserved across the grant. -/
theorem consent_grant_single_active (store : List ConsentRecord) (userId : Nat)
    (consentType version : String) (now : Nat) (method : String)
    (ip notes : Option String) :
    (Consent.activeRecords
        (Consent.grant store userId consentType version now method ip notes).1
        userId consentType =
      [(Consent.grant store userId consentType version now method ip notes).2]) ∧
    (∀ u' ty', ¬(u' = userId ∧ ty' = consentType) →
       Consent.activeRecords
           (Consent.grant store userId consentType version now method ip notes).1 u' ty' =
         Consent.activeRecords store u' ty') ∧
    ((∀ u' ty', (Consent.activeRecords store u' ty').length ≤ 1) →
       ∀ u' ty',
         (Consent.activeRecords
             (Consent.grant store userId consentType version now method ip notes).1
             u' ty').length ≤ 1) := by
  have ha : Consent.activeRecords
      (Consent.grant store userId consentType version now method ip notes).1
      userId consentType =
      [(Consent.grant store userId consentType version now method ip notes).2] := by
    simp only [Consent.grant, Consent.activeRecords]
    rw [List.filter_append]
    rw [filter_map_eq_nil]
    · simp [Consent.activeMatch]
    · intro c hc
      by_cases hm : Consent.activeMatch userId consentType c
      · rw [if_pos hm]
        simp [Consent.activeMatch]
      · rw [if_neg hm]
        simpa using hm
  have hb : ∀ u' ty', ¬(u' = userId ∧ ty' = consentType) →
      Consent.activeRecords
          (Consent.grant store userId consentType version now method ip notes).1 u' ty' =
        Consent.activeRecords store u' ty' := by
    intro u' ty' hne
    simp only [Consent.grant, Consent.activeRecords]
    rw [List.filter_append]
    have hnew : Consent.activeMatch u' ty'
        { user := userId, consentType := consentType, version := version,
          granted := true, grantedAt := some now, revokedAt := none,
          method := method, ipAddress := ip, notes := notes } = false := by
      simp only [Consent.activeMatch, decide_eq_false_iff_not]
      intro hcon
      exact hne ⟨hcon.1.symm ▸ rfl, hcon.2.1.symm ▸ rfl⟩
    rw [filter_map_congr_eq]
    · simp [hnew]
    · intro c hc
      constructor
      · intro hpc
        have hcu : c.user = u' ∧ c.consentType = ty' ∧ c.granted = true ∧
            c.revokedAt = none := by
          simpa [Consent.activeMatch] using hpc
        rw [if_neg]
        intro hm
        have hcm : c.user = userId ∧ c.consentType = consentType ∧ c.granted = true ∧
            c.revokedAt = none := by
          simpa [Consent.activeMatch] using hm
        exact hne ⟨hcu.1 ▸ hcm.1, hcu.2.1 ▸ hcm.2.1⟩
      · intro hpc
        by_cases hm : Consent.activeMatch userId consentType c
        · rw [if_pos hm]
          simp [Consent.activeMatch]
        · rw [if_neg hm]
          exact hpc
  refine ⟨ha, hb, ?_⟩
  intro hinv u' ty'
  by_cases h : u' = userId ∧ ty' = consentType
  · obtain ⟨rfl, rfl⟩ := h
    rw [ha]
    simp
  · rw [hb u' ty' h]
    exact hinv u' ty'

/-- An active consent record of user 7 for the privacy policy. -/
def demoConsent : ConsentRecord :=
  { user := 7, consentType := "privacy_policy", version := "1.0", granted := true,
    grantedAt := some 0, revokedAt := none, method := "registration",
    ipAddress := none, notes := none }

/-- Witness for C7: granting a newer privacy-policy consent over an active
one leaves exactly the new record active for that pair, leaves an unrelated
pair untouched, and keeps the at-most-one-active bound. -/
theorem consent_grant_single_active_witness :
    (Consent.activeRecords
        (Consent.grant [demoConsent] 7 "privacy_policy" "2.0" 5 "settings" none none).1
        7 "privacy_policy" =
      [(Consent.grant [demoConsent] 7 "privacy_policy" "2.0" 5 "settings" none none).2]) ∧
    (Consent.activeRecords
        (Consent.grant [demoConsent] 7 "privacy_policy" "2.0" 5 "settings" none none).1
        8 "marketing" =
      Consent.activeRecords [demoConsent] 8 "marketing") ∧
    (Consent.activeRecords
        (Consent.grant [demoConsent] 7 "privacy_policy" "2.0" 5 "settings" none none).1
        7 "privacy_policy").length ≤ 1 :=
  ⟨(consent_grant_single_active [demoConsent] 7 "privacy_policy" "2.0" 5 "settings"
      none none).1,
   (consent_grant_single_active [demoConsent] 7 "privacy_policy" "2.0" 5 "settings"
      none none).2.1 8 "marketing" (by decide),
   (consent_grant_single_active [demoConsent] 7 "privacy_policy" "2.0" 5 "settings"
      none none).2.2
     (fun u' ty' => List.length_filter_le _ _) 7 "privacy_policy"⟩
